import Mathlib

/-!
Verification development for the WebSocket stream lifecycle primitive of the
binance-connector repository (websocket.go: wsServe and keepAlive).

The Go source spawns, per successfully opened session, two goroutines that
communicate over two unbuffered channels doneCh and stopCh:

  * a read loop that repeatedly calls c.ReadMessage(); on success it calls
    handler(message) synchronously; on error it calls errHandler(err) unless
    the shared boolean silent is set, then performs the blocking send
    stopCh <- struct\x7b\x7d and returns;
  * a coordinator that loops on select \x7b case <-stopCh: silent = true;
    return; case <-doneCh: \x7d and closes doneCh via defer when it returns.

We embed this pair of goroutines, together with the caller (who may perform
blocking sends on stopCh) and the network (which delivers frames or read
errors to the blocked ReadMessage call), as a small-step transition system
under sequentially consistent interleaving semantics.  Each transition is one
observable scheduler event; channel rendezvous on the unbuffered stopCh is a
single atomic step pairing one pending sender with the coordinator receiver.

Notes tying the model to the source:
  * doneCh is closed only by the coordinator's deferred close, and nothing
    ever sends on doneCh, so the coordinator's case <-doneCh branch can never
    fire while the coordinator is alive; it is therefore not an event.
  * Nothing in wsServe or keepAlive ever calls c.Close(); the field
    socketClosed records whether such a call has executed and consequently
    never becomes true.
  * c.SetReadLimit(655350) is executed before either goroutine is spawned;
    gorilla/websocket makes ReadMessage return an error for any inbound
    message longer than the limit, which we model as the read-error path
    with error readLimitExceeded.
-/

namespace BinanceConnector

/-- A raw websocket message payload, the byte slice handed to handler. -/
abbrev Msg := List Nat

/-- The inbound per-message size ceiling installed by c.SetReadLimit(655350)
before the read loop starts. -/
def readLimit : Nat := 655350

/-- Errors that c.ReadMessage() can return: the peer closing the connection,
the read-limit violation, or any other transport error. -/
inductive ReadErr
  | peerClosed
  | readLimitExceeded
  | socketErr (code : Nat)
deriving DecidableEq, Repr

/-- Control point of the read-loop goroutine. -/
inductive ReaderPhase
  /-- blocked in c.ReadMessage() -/
  | reading
  /-- blocked in the send stopCh <- struct\x7b\x7d on the error path -/
  | sendingStop
  /-- the goroutine has returned -/
  | returned
deriving DecidableEq, Repr

/-- Observable state of one stream session opened by wsServe. -/
structure SessState where
  /-- where the read-loop goroutine is -/
  readerPhase : ReaderPhase
  /-- the coordinator goroutine is still inside its select loop -/
  coordAlive : Bool
  /-- the shared boolean silent of wsServe -/
  silent : Bool
  /-- how many times close(doneCh) has executed -/
  doneCloseCount : Nat
  /-- arguments of the handler(message) calls made so far, in call order -/
  handledMsgs : List Msg
  /-- arguments of the errHandler(err) calls made so far, in call order -/
  errCalls : List ReadErr
  /-- caller goroutines currently blocked in stopCh <- struct\x7b\x7d -/
  pendingCallerStops : Nat
  /-- caller sends on stopCh that have completed (were received) -/
  callerStopsCompleted : Nat
  /-- whether c.Close() has executed; wsServe contains no such call -/
  socketClosed : Bool
deriving DecidableEq, Repr

/-- State right after a successful wsServe call returns: both goroutines
started, silent = false, no channel activity yet. -/
def initSess : SessState :=
  ⟨ReaderPhase.reading, true, false, 0, [], [], 0, 0, false⟩

/-- The read loop's error path: it reads silent, calls errHandler(err) when
silent is false, and moves to the blocking send on stopCh. -/
def readerError (s : SessState) (e : ReadErr) : SessState :=
  { s with
      errCalls := if s.silent then s.errCalls else s.errCalls ++ [e]
      readerPhase := ReaderPhase.sendingStop }

/-- Scheduler events of one session. -/
inductive Ev
  /-- the network delivers a frame to the blocked ReadMessage call -/
  | netFrame (m : Msg)
  /-- ReadMessage returns the error e -/
  | netError (e : ReadErr)
  /-- the caller starts a blocking send stopCh <- struct\x7b\x7d -/
  | callerStop
  /-- the coordinator's <-stopCh pairs with the read loop's pending send -/
  | coordRecvReader
  /-- the coordinator's <-stopCh pairs with one pending caller send -/
  | coordRecvCaller
deriving DecidableEq, Repr

/-- One interleaving step; none when the event is not enabled in s. -/
def step (s : SessState) : Ev → Option SessState
  | Ev.netFrame m =>
      match s.readerPhase with
      | ReaderPhase.reading =>
          if m.length ≤ readLimit then
            some { s with handledMsgs := s.handledMsgs ++ [m] }
          else
            some (readerError s ReadErr.readLimitExceeded)
      | _ => none
  | Ev.netError e =>
      match s.readerPhase with
      | ReaderPhase.reading => some (readerError s e)
      | _ => none
  | Ev.callerStop =>
      some { s with pendingCallerStops := s.pendingCallerStops + 1 }
  | Ev.coordRecvReader =>
      match s.coordAlive, s.readerPhase with
      | true, ReaderPhase.sendingStop =>
          some { s with
                  silent := true
                  coordAlive := false
                  doneCloseCount := s.doneCloseCount + 1
                  readerPhase := ReaderPhase.returned }
      | _, _ => none
  | Ev.coordRecvCaller =>
      match s.coordAlive, s.pendingCallerStops with
      | true, n + 1 =>
          some { s with
                  silent := true
                  coordAlive := false
                  doneCloseCount := s.doneCloseCount + 1
                  pendingCallerStops := n
                  callerStopsCompleted := s.callerStopsCompleted + 1 }
      | _, _ => none

/-- Run a list of scheduler events from a state; none when some event in the
list is not enabled at its turn. -/
def runSess : SessState → List Ev → Option SessState
  | s, [] => some s
  | s, e :: evs => (step s e).bind fun t => runSess t evs

/-- The TLS connection state of an HTTP response (http.Response.TLS is a
pointer that is nil for connections that did not use TLS). -/
structure TLSConnState where
  negotiatedProtocol : String
deriving DecidableEq, Repr

/-- The fields of the *http.Response that the dial-error branch of wsServe
reads.  The response pointer itself may be nil, which is represented by
wrapping this structure in Option at the use site. -/
structure HttpResponse where
  status : String
  tls : Option TLSConnState
deriving DecidableEq, Repr

/-- Classification of a Dialer.Dial error, mirroring the type switch in the
error branch of wsServe (websocket.CloseError, websocket.HandshakeError, or
any other error such as a plain network failure). -/
inductive DialErr
  | closeError
  | handshakeError
  | genericError
deriving DecidableEq, Repr

/-- Result of Dialer.Dial as seen by wsServe: success, or an error together
with the possibly-nil *http.Response (gorilla/websocket returns a nil
response for failures that occur before an HTTP response exists, e.g. DNS
failure or connection refused). -/
inductive DialOutcome
  | ok
  | fail (e : DialErr) (resp : Option HttpResponse)
deriving DecidableEq, Repr

/-- How a call to wsServe resolves at its own boundary. -/
inductive OpenResult
  /-- connection established, goroutines started, channels returned -/
  | opened
  /-- return nil, nil, err executed -/
  | errReturned (e : DialErr)
  /-- a nil-pointer dereference panic escaped the call -/
  | panicked
deriving DecidableEq, Repr

/-- The connection-open portion of wsServe.  On a dial error the source runs
fmt.Printf("HTTP Response Status: %s\n", httpResponse.Status) and then
fmt.Printf("HTTP Response TLS NegotiatedProtocol: %s\n",
httpResponse.TLS.NegotiatedProtocol) before wrapping and returning the
error; the first dereferences a nil httpResponse and the second a nil
httpResponse.TLS, each of which panics. -/
def wsServeOpen (d : DialOutcome) : OpenResult :=
  match d with
  | DialOutcome.ok => OpenResult.opened
  | DialOutcome.fail e resp =>
      match resp with
      | none => OpenResult.panicked
      | some r =>
          match r.tls with
          | none => OpenResult.panicked
          | some _ => OpenResult.errReturned e

/-- State of the keepAlive goroutine.  Time is in abstract units; the ticker
period equals the timeout argument, exactly as in the source
(ticker := time.NewTicker(timeout)). -/
structure KAState where
  /-- current time -/
  now : Nat
  /-- the lastResponse timestamp written by the pong handler -/
  lastResponse : Nat
  /-- the keepalive goroutine loop is still running -/
  running : Bool
  /-- the deferred ticker.Stop() has executed -/
  tickerStopped : Bool
  /-- whether c.Close() has executed; keepAlive contains no such call -/
  socketClosed : Bool
deriving DecidableEq, Repr

/-- Environment input to one keepalive loop iteration: whether the
WriteControl ping succeeds, and the time of the pong processed during the
tick wait, when one arrives. -/
structure KAInput where
  pingOk : Bool
  pongAt : Option Nat
deriving DecidableEq, Repr

/-- One iteration of the keepAlive loop body: send a ping (exit when the
send fails), wait for the next tick (advancing time by the ticker period,
which is timeout), let a pong update lastResponse, then exit when
time.Since(lastResponse) > timeout.  Exiting runs the deferred
ticker.Stop(); nothing closes the socket. -/
def kaStep (timeout : Nat) (s : KAState) (inp : KAInput) : KAState :=
  if s.running then
    if inp.pingOk then
      let now2 := s.now + timeout
      let last2 := inp.pongAt.getD s.lastResponse
      if timeout < now2 - last2 then
        { s with now := now2, lastResponse := last2,
                 running := false, tickerStopped := true }
      else
        { s with now := now2, lastResponse := last2 }
    else
      { s with running := false, tickerStopped := true }
  else s

/-- Iterate the keepalive loop over a list of per-iteration inputs. -/
def kaRun (timeout : Nat) : KAState → List KAInput → KAState
  | s, [] => s
  | s, inp :: rest => kaRun timeout (kaStep timeout s inp) rest

/-- The frame payload of an event, when the event is a frame delivery. -/
def frameOf : Ev → Option Msg
  | Ev.netFrame m => some m
  | _ => none

/-- Payloads of the frames delivered by an event list, in receipt order. -/
def framePayloads (evs : List Ev) : List Msg :=
  evs.filterMap frameOf

/-- Session state after the caller raises stop and the coordinator handles
it: done closed, silent set, read loop still blocked in ReadMessage. -/
def c1State : SessState :=
  ⟨ReaderPhase.reading, false, true, 1, [], [], 0, 1, false⟩

/-- Session state after a read error terminates the session and the caller
then starts a stop send: the send stays pending with no receiver left. -/
def c2State : SessState :=
  ⟨ReaderPhase.returned, false, true, 1, [], [ReadErr.peerClosed], 1, 0, false⟩

/-- Session state after a caller-initiated stop is handled; identical shape
to c1State, used for the stop-teardown claim. -/
def c4State : SessState :=
  ⟨ReaderPhase.reading, false, true, 1, [], [], 0, 1, false⟩

/-- Session state after an error-path termination completes. -/
def c5State : SessState :=
  ⟨ReaderPhase.returned, false, true, 1, [], [ReadErr.peerClosed], 0, 0, false⟩

/-- Session state after an error-path termination completes, for the
error-handler claim. -/
def c6State : SessState :=
  ⟨ReaderPhase.returned, false, true, 1, [], [ReadErr.peerClosed], 0, 0, false⟩

/-- Session state after a caller-initiated stop is handled, for the
silence claim. -/
def c7State : SessState :=
  ⟨ReaderPhase.reading, false, true, 1, [], [], 0, 1, false⟩

/-- A short event trace: two frames, then the peer closes. -/
def c9Trace : List Ev :=
  [Ev.netFrame [1], Ev.netFrame [2, 3], Ev.netError ReadErr.peerClosed]

/-- Session state reached by c9Trace. -/
def c9State : SessState :=
  ⟨ReaderPhase.sendingStop, true, false, 0, [[1], [2, 3]], [ReadErr.peerClosed], 0, 0, false⟩

/-- Inductive invariant of the session transition system: done closes at
most once and exactly when the coordinator exits, silent mirrors the
coordinator having exited, a returned reader implies a dead coordinator,
the error handler fires at most once, and the socket is never closed. -/
def Inv (s : SessState) : Prop :=
  s.doneCloseCount ≤ 1 ∧
  (s.coordAlive = true ↔ s.doneCloseCount = 0) ∧
  s.silent = !s.coordAlive ∧
  (s.readerPhase = ReaderPhase.returned → s.coordAlive = false) ∧
  (s.readerPhase = ReaderPhase.reading → s.errCalls = []) ∧
  s.errCalls.length ≤ 1 ∧
  s.socketClosed = false

theorem inv_init : Inv initSess := by
  refine ⟨?_, ?_, ?_, ?_, ?_, ?_, ?_⟩ <;> simp [initSess]

theorem step_preserves_inv {s t : SessState} {e : Ev}
    (hI : Inv s) (h : step s e = some t) : Inv t := by
  obtain ⟨h1, h2, h3, h4, h5, h6, h7⟩ := hI
  cases e with
  | netFrame m =>
      simp only [step] at h
      split at h
      · split at h <;>
          · simp only [Option.some.injEq] at h
            subst h
            simp_all [Inv, readerError]
            try (split <;> simp)
      · exact absurd h (by simp)
  | netError e =>
      simp only [step] at h
      split at h
      · simp only [Option.some.injEq] at h
        subst h
        simp_all [Inv, readerError]
        try (split <;> simp)
      · exact absurd h (by simp)
  | callerStop =>
      simp only [step, Option.some.injEq] at h
      subst h
      simp_all [Inv]
  | coordRecvReader =>
      simp only [step] at h
      split at h
      · simp only [Option.some.injEq] at h
        subst h
        simp_all [Inv]
      · exact absurd h (by simp)
  | coordRecvCaller =>
      simp only [step] at h
      split at h
      · simp only [Option.some.injEq] at h
        subst h
        simp_all [Inv]
      · exact absurd h (by simp)

theorem runSess_ind (P : SessState → Prop)
    (hstep : ∀ s e t, P s → step s e = some t → P t) :
    ∀ (evs : List Ev) (s t : SessState), P s → runSess s evs = some t → P t := by
  intro evs
  induction evs with
  | nil =>
      intro s t hP h
      simp only [runSess, Option.some.injEq] at h
      subst h
      exact hP
  | cons e evs ih =>
      intro s t hP h
      simp only [runSess] at h
      cases hst : step s e with
      | none => rw [hst] at h; simp at h
      | some u =>
          rw [hst] at h
          simp only [Option.some_bind] at h
          exact ih u t (hstep s e u hP hst) h

/-- Every state reachable from a freshly opened session satisfies Inv. -/
theorem reachable_inv {evs : List Ev} {s : SessState}
    (h : runSess initSess evs = some s) : Inv s :=
  runSess_ind Inv (fun _ _ _ => step_preserves_inv) evs initSess s inv_init h

theorem runSess_append (s : SessState) (l1 l2 : List Ev) :
    runSess s (l1 ++ l2) = (runSess s l1).bind fun t => runSess t l2 := by
  induction l1 generalizing s with
  | nil => simp [runSess]
  | cons e l1 ih =>
      simp only [List.cons_append, runSess]
      cases step s e with
      | none => simp
      | some u => simp [ih u]

/-- Once the coordinator has exited, no step revives it, completes a caller
stop send, changes the done-close count, the silent flag or the socket, or
lets the read loop return: both receive events are disabled forever. -/
theorem step_coord_dead {s t : SessState} {e : Ev}
    (hc : s.coordAlive = false) (h : step s e = some t) :
    t.coordAlive = false ∧
    t.callerStopsCompleted = s.callerStopsCompleted ∧
    t.doneCloseCount = s.doneCloseCount ∧
    t.socketClosed = s.socketClosed ∧
    t.silent = s.silent ∧
    s.pendingCallerStops ≤ t.pendingCallerStops ∧
    (t.readerPhase = ReaderPhase.returned → s.readerPhase = ReaderPhase.returned) := by
  cases e with
  | netFrame m =>
      simp only [step] at h
      split at h
      · split at h <;>
          · simp only [Option.some.injEq] at h
            subst h
            simp_all [readerError]
      · exact absurd h (by simp)
  | netError e =>
      simp only [step] at h
      split at h
      · simp only [Option.some.injEq] at h
        subst h
        simp_all [readerError]
      · exact absurd h (by simp)
  | callerStop =>
      simp only [step, Option.some.injEq] at h
      subst h
      simp_all
  | coordRecvReader =>
      simp only [step] at h
      split at h
      · simp_all
      · exact absurd h (by simp)
  | coordRecvCaller =>
      simp only [step] at h
      split at h
      · simp_all
      · exact absurd h (by simp)

/-- Run-level closure of step_coord_dead. -/
theorem runSess_coord_dead {s : SessState} (evs : List Ev) {t : SessState}
    (hc : s.coordAlive = false) (h : runSess s evs = some t) :
    t.coordAlive = false ∧
    t.callerStopsCompleted = s.callerStopsCompleted ∧
    t.doneCloseCount = s.doneCloseCount ∧
    t.socketClosed = s.socketClosed ∧
    t.silent = s.silent ∧
    s.pendingCallerStops ≤ t.pendingCallerStops ∧
    (t.readerPhase = ReaderPhase.returned → s.readerPhase = ReaderPhase.returned) := by
  refine runSess_ind
    (fun x => x.coordAlive = false ∧
      x.callerStopsCompleted = s.callerStopsCompleted ∧
      x.doneCloseCount = s.doneCloseCount ∧
      x.socketClosed = s.socketClosed ∧
      x.silent = s.silent ∧
      s.pendingCallerStops ≤ x.pendingCallerStops ∧
      (x.readerPhase = ReaderPhase.returned → s.readerPhase = ReaderPhase.returned))
    ?_ evs s t ⟨hc, rfl, rfl, rfl, rfl, le_refl _, fun hr => hr⟩ h
  intro a e b hPa hstep
  obtain ⟨ha1, ha2, ha3, ha4, ha5, ha6, ha7⟩ := hPa
  obtain ⟨hb1, hb2, hb3, hb4, hb5, hb6, hb7⟩ := step_coord_dead ha1 hstep
  exact ⟨hb1, hb2.trans ha2, hb3.trans ha3, hb4.trans ha4, hb5.trans ha5,
    ha6.trans hb6, fun hr => ha7 (hb7 hr)⟩

/-- Once the silent flag is set, it stays set and no further errHandler call
ever happens. -/
theorem step_silent_stable {s t : SessState} {e : Ev}
    (hs : s.silent = true) (h : step s e = some t) :
    t.silent = true ∧ t.errCalls = s.errCalls := by
  cases e with
  | netFrame m =>
      simp only [step] at h
      split at h
      · split at h <;>
          · simp only [Option.some.injEq] at h
            subst h
            simp_all [readerError]
      · exact absurd h (by simp)
  | netError e =>
      simp only [step] at h
      split at h
      · simp only [Option.some.injEq] at h
        subst h
        simp_all [readerError]
      · exact absurd h (by simp)
  | callerStop =>
      simp only [step, Option.some.injEq] at h
      subst h
      simp_all
  | coordRecvReader =>
      simp only [step] at h
      split at h
      · simp only [Option.some.injEq] at h
        subst h
        simp_all
      · exact absurd h (by simp)
  | coordRecvCaller =>
      simp only [step] at h
      split at h
      · simp only [Option.some.injEq] at h
        subst h
        simp_all
      · exact absurd h (by simp)

/-- Run-level closure of step_silent_stable. -/
theorem runSess_silent_stable {s : SessState} (evs : List Ev) {t : SessState}
    (hs : s.silent = true) (h : runSess s evs = some t) :
    t.silent = true ∧ t.errCalls = s.errCalls := by
  refine runSess_ind
    (fun x => x.silent = true ∧ x.errCalls = s.errCalls)
    ?_ evs s t ⟨hs, rfl⟩ h
  intro a e b hPa hstep
  obtain ⟨ha1, ha2⟩ := hPa
  obtain ⟨hb1, hb2⟩ := step_silent_stable ha1 hstep
  exact ⟨hb1, hb2.trans ha2⟩

/-- Events other than frame deliveries never invoke the message handler. -/
theorem step_handledMsgs_nonframe {s t : SessState} {e : Ev}
    (h : step s e = some t) (hne : ∀ m, e ≠ Ev.netFrame m) :
    t.handledMsgs = s.handledMsgs := by
  cases e with
  | netFrame m => exact absurd rfl (hne m)
  | netError e =>
      simp only [step] at h
      split at h
      · simp only [Option.some.injEq] at h
        subst h
        simp [readerError]
      · exact absurd h (by simp)
  | callerStop =>
      simp only [step, Option.some.injEq] at h
      subst h
      rfl
  | coordRecvReader =>
      simp only [step] at h
      split at h
      · simp only [Option.some.injEq] at h
        subst h
        rfl
      · exact absurd h (by simp)
  | coordRecvCaller =>
      simp only [step] at h
      split at h
      · simp only [Option.some.injEq] at h
        subst h
        rfl
      · exact absurd h (by simp)

/-- The handler receives exactly the delivered frame payloads, appended in
receipt order, as long as every delivered frame is within the read limit. -/
theorem runSess_handledMsgs (evs : List Ev) :
    ∀ s t : SessState, runSess s evs = some t →
    (∀ m, Ev.netFrame m ∈ evs → m.length ≤ readLimit) →
    t.handledMsgs = s.handledMsgs ++ framePayloads evs := by
  induction evs with
  | nil =>
      intro s t h _
      simp only [runSess, Option.some.injEq] at h
      subst h
      simp [framePayloads]
  | cons e evs ih =>
      intro s t h hsz
      simp only [runSess] at h
      cases hst : step s e with
      | none => rw [hst] at h; simp at h
      | some u =>
          rw [hst] at h
          simp only [Option.some_bind] at h
          have hsz2 : ∀ m, Ev.netFrame m ∈ evs → m.length ≤ readLimit :=
            fun m hm => hsz m (List.mem_cons_of_mem _ hm)
          have ihu := ih u t h hsz2
          cases e with
          | netFrame m =>
              have hm : m.length ≤ readLimit := hsz m (List.mem_cons_self _ _)
              simp only [step] at hst
              split at hst
              · rw [if_pos hm] at hst
                simp only [Option.some.injEq] at hst
                subst hst
                rw [ihu]
                simp [framePayloads, frameOf, List.filterMap_cons]
              · exact absurd hst (by simp)
          | netError e1 =>
              rw [ihu, step_handledMsgs_nonframe hst (by simp)]
              simp [framePayloads, frameOf, List.filterMap_cons]
          | callerStop =>
              rw [ihu, step_handledMsgs_nonframe hst (by simp)]
              simp [framePayloads, frameOf, List.filterMap_cons]
          | coordRecvReader =>
              rw [ihu, step_handledMsgs_nonframe hst (by simp)]
              simp [framePayloads, frameOf, List.filterMap_cons]
          | coordRecvCaller =>
              rw [ihu, step_handledMsgs_nonframe hst (by simp)]
              simp [framePayloads, frameOf, List.filterMap_cons]

/-- Claim C1: against the claim that done closes only after the read loop
has returned (so that no messageHandler call can follow an observed done
close), the code closes doneCh on a caller-initiated stop while the read
loop is still blocked in ReadMessage, and a frame delivered afterwards
still invokes the handler: after the trace stop, coordinator-receive the
state has doneCloseCount = 1 with the reader still reading, and a further
frame step appends to handledMsgs. -/
theorem c1_handler_called_after_done_closed :
    runSess initSess [Ev.callerStop, Ev.coordRecvCaller] = some c1State ∧
    c1State.doneCloseCount = 1 ∧
    c1State.readerPhase = ReaderPhase.reading ∧
    step c1State (Ev.netFrame [7]) =
      some { c1State with handledMsgs := [[7]] } := by
  refine ⟨by decide, by decide, by decide, by decide⟩

/-- Claim C2: against the claim that raising stop after the session has
terminated has no observable effect, a caller send on the unbuffered stopCh
after the coordinator has exited is never received: along every continuation
the send stays pending and never completes, i.e. the caller blocks forever. -/
theorem c2_stop_after_done_blocks_forever (evs : List Ev) (s : SessState)
    (h : runSess initSess
      ([Ev.netError ReadErr.peerClosed, Ev.coordRecvReader, Ev.callerStop] ++ evs) =
      some s) :
    s.doneCloseCount = 1 ∧ 1 ≤ s.pendingCallerStops ∧ s.callerStopsCompleted = 0 := by
  rw [runSess_append] at h
  have hpre : runSess initSess
      [Ev.netError ReadErr.peerClosed, Ev.coordRecvReader, Ev.callerStop] =
      some c2State := by decide
  rw [hpre] at h
  simp only [Option.some_bind] at h
  obtain ⟨_, h2, h3, _, _, h6, _⟩ :=
    runSess_coord_dead evs (by decide : c2State.coordAlive = false) h
  exact ⟨by rw [h3]; decide, h6, by rw [h2]; decide⟩

theorem c2_witness :
    c2State.doneCloseCount = 1 ∧ 1 ≤ c2State.pendingCallerStops ∧
    c2State.callerStopsCompleted = 0 :=
  c2_stop_after_done_blocks_forever [] c2State (by decide)

/-- Claim C3: against the claim that the open primitive never panics for
expected failure modes, the dial-error branch of wsServe dereferences the
possibly-nil httpResponse (and its TLS field) while printing debug output,
so a generic network failure (nil response) and a plain-HTTP handshake
failure (nil TLS state) both panic instead of returning the error. -/
theorem c3_open_panics_on_dial_failure :
    wsServeOpen (DialOutcome.fail DialErr.genericError none) = OpenResult.panicked ∧
    wsServeOpen (DialOutcome.fail DialErr.handshakeError
      (some ⟨"400 Bad Request", none⟩)) = OpenResult.panicked :=
  ⟨rfl, rfl⟩

/-- Claim C4: against the claim that stop-handling tears down the underlying
connection so that the read loop's blocking receive unblocks and the loop
terminates, the code's stop path only sets silent and closes doneCh: the
socket is never closed and along every continuation the read loop never
returns. -/
theorem c4_stop_never_closes_socket (evs : List Ev) (s : SessState)
    (h : runSess initSess ([Ev.callerStop, Ev.coordRecvCaller] ++ evs) = some s) :
    s.socketClosed = false ∧ s.doneCloseCount = 1 ∧
    s.readerPhase ≠ ReaderPhase.returned := by
  rw [runSess_append] at h
  have hpre : runSess initSess [Ev.callerStop, Ev.coordRecvCaller] = some c4State := by
    decide
  rw [hpre] at h
  simp only [Option.some_bind] at h
  obtain ⟨_, _, h3, h4, _, _, h7⟩ :=
    runSess_coord_dead evs (by decide : c4State.coordAlive = false) h
  exact ⟨by rw [h4]; decide, by rw [h3]; decide, fun hr => absurd (h7 hr) (by decide)⟩

theorem c4_witness :
    c4State.socketClosed = false ∧ c4State.doneCloseCount = 1 :=
  ⟨(c4_stop_never_closes_socket [] c4State (by decide)).1,
   (c4_stop_never_closes_socket [] c4State (by decide)).2.1⟩

/-- Claim C5: for every reachable state of a session, under any interleaving
of caller stop sends, frames and read errors, close(doneCh) has executed at
most once, and once the read loop has returned it has executed exactly
once. -/
theorem c5_done_closes_exactly_once (evs : List Ev) (s : SessState)
    (h : runSess initSess evs = some s) :
    s.doneCloseCount ≤ 1 ∧
    (s.readerPhase = ReaderPhase.returned → s.doneCloseCount = 1) := by
  obtain ⟨h1, h2, _, h4, _, _, _⟩ := reachable_inv h
  refine ⟨h1, fun hr => ?_⟩
  have hca := h4 hr
  have hne : s.doneCloseCount ≠ 0 := by
    intro h0
    rw [h2.mpr h0] at hca
    simp at hca
  omega

theorem c5_witness :
    runSess initSess [Ev.netError ReadErr.peerClosed, Ev.coordRecvReader] =
      some c5State ∧
    c5State.doneCloseCount = 1 := by
  refine ⟨by decide, ?_⟩
  exact (c5_done_closes_exactly_once
    [Ev.netError ReadErr.peerClosed, Ev.coordRecvReader] c5State (by decide)).2
    (by decide)

/-- Claim C6: when a read error hits a session with no prior stop handled
(coordinator alive, reader still reading), the errHandler is invoked with
exactly that one error, done subsequently closes once the coordinator
receives the read loop's stop send, and no later event ever adds another
errHandler call. -/
theorem c6_error_handler_fires_exactly_once (evs evs2 : List Ev)
    (s t u : SessState) (e : ReadErr)
    (h : runSess initSess evs = some s)
    (hc : s.coordAlive = true)
    (hr : s.readerPhase = ReaderPhase.reading)
    (ht : runSess s [Ev.netError e, Ev.coordRecvReader] = some t)
    (hu : runSess t evs2 = some u) :
    t.errCalls = [e] ∧ t.doneCloseCount = 1 ∧
    t.readerPhase = ReaderPhase.returned ∧ u.errCalls = [e] := by
  obtain ⟨_, h2, h3, _, h5, _, _⟩ := reachable_inv h
  have hsil : s.silent = false := by rw [h3, hc]; rfl
  have herr : s.errCalls = [] := h5 hr
  have hcount : s.doneCloseCount = 0 := h2.mp hc
  have ht1 : t = { s with
      errCalls := [e]
      readerPhase := ReaderPhase.returned
      silent := true
      coordAlive := false
      doneCloseCount := s.doneCloseCount + 1 } := by
    simp only [runSess, step, hr, readerError, hsil, herr, hc, Option.some_bind,
      Bool.false_eq_true, if_false, List.nil_append, Option.some.injEq] at ht
    exact ht.symm
  have hu2 := runSess_silent_stable evs2 (by rw [ht1]) hu
  refine ⟨by rw [ht1], by rw [ht1]; simp [hcount], by rw [ht1], ?_⟩
  rw [hu2.2, ht1]

theorem c6_witness :
    c6State.errCalls = [ReadErr.peerClosed] ∧ c6State.doneCloseCount = 1 ∧
    c6State.readerPhase = ReaderPhase.returned ∧
    c6State.errCalls = [ReadErr.peerClosed] :=
  c6_error_handler_fires_exactly_once [] [] initSess c6State c6State
    ReadErr.peerClosed rfl rfl rfl (by decide) rfl

/-- Claim C7: when the caller's stop is handled before any read error, the
silent flag set by the coordinator's stop branch suppresses the error
handler for the read loop's subsequent termination: along every
continuation no errHandler call ever occurs. -/
theorem c7_stop_suppresses_error_handler (evs : List Ev) (s : SessState)
    (h : runSess initSess ([Ev.callerStop, Ev.coordRecvCaller] ++ evs) = some s) :
    s.errCalls = [] := by
  rw [runSess_append] at h
  have hpre : runSess initSess [Ev.callerStop, Ev.coordRecvCaller] = some c7State := by
    decide
  rw [hpre] at h
  simp only [Option.some_bind] at h
  exact (runSess_silent_stable evs (by decide : c7State.silent = true) h).2.trans rfl

theorem c7_witness : c7State.errCalls = [] :=
  c7_stop_suppresses_error_handler [] c7State (by decide)

/-- Claim C8 counterexample: with timeout 5 and a peer that never sends a
pong, the keepalive loop has exited after the second tick (elapsed 10 > 5)
while the socket remains unclosed, refuting the claim that the monitor
closes the socket as its side effect. -/
theorem c8_counterexample :
    (kaRun 5 ⟨0, 0, true, false, false⟩ [⟨true, none⟩, ⟨true, none⟩]).running = false ∧
    (kaRun 5 ⟨0, 0, true, false, false⟩ [⟨true, none⟩, ⟨true, none⟩]).socketClosed = false := by
  refine ⟨by decide, by decide⟩

/-- Claim C8 as amended: when at a tick the elapsed time since the last
liveness acknowledgment exceeds the timeout, the keepalive monitor
terminates its own loop and stops its ticker, leaving the socket exactly as
it was (the monitor itself never closes it). -/
theorem c8_monitor_exits_on_silent_peer (timeout : Nat) (s : KAState) (inp : KAInput)
    (hrun : s.running = true) (hping : inp.pingOk = true)
    (hto : timeout < s.now + timeout - inp.pongAt.getD s.lastResponse) :
    (kaStep timeout s inp).running = false ∧
    (kaStep timeout s inp).tickerStopped = true ∧
    (kaStep timeout s inp).socketClosed = s.socketClosed := by
  simp [kaStep, hrun, hping, hto]

theorem c8_witness :
    (kaStep 5 ⟨5, 0, true, false, false⟩ ⟨true, none⟩).running = false ∧
    (kaStep 5 ⟨5, 0, true, false, false⟩ ⟨true, none⟩).tickerStopped = true ∧
    (kaStep 5 ⟨5, 0, true, false, false⟩ ⟨true, none⟩).socketClosed =
      KAState.socketClosed ⟨5, 0, true, false, false⟩ :=
  c8_monitor_exits_on_silent_peer 5 ⟨5, 0, true, false, false⟩ ⟨true, none⟩
    rfl rfl (by decide)

/-- Claim C9: for any event interleaving in which every delivered frame is
within the read limit, the handler is invoked exactly once per delivered
frame, with the raw payloads in receipt order, with no duplication; handler
calls are steps of the single read-loop component, hence sequential. -/
theorem c9_messages_delivered_in_order (evs : List Ev) (s : SessState)
    (h : runSess initSess evs = some s)
    (hsz : ∀ m, Ev.netFrame m ∈ evs → m.length ≤ readLimit) :
    s.handledMsgs = framePayloads evs := by
  have hh := runSess_handledMsgs evs initSess s h hsz
  simpa [initSess] using hh

theorem c9_witness :
    runSess initSess c9Trace = some c9State ∧
    c9State.handledMsgs = framePayloads c9Trace := by
  refine ⟨by decide, ?_⟩
  refine c9_messages_delivered_in_order c9Trace c9State (by decide) ?_
  intro m hm
  simp [c9Trace] at hm
  rcases hm with rfl | rfl <;> decide

/-- Claim C10: the inbound frame ceiling installed by SetReadLimit before
the goroutines start is exactly 655350 bytes, and a frame strictly larger
than it makes ReadMessage surface the read-error path (readerError), never
a handler delivery: handledMsgs is unchanged. -/
theorem c10_oversized_frame_takes_error_path (s : SessState) (m : Msg)
    (hr : s.readerPhase = ReaderPhase.reading) (hm : readLimit < m.length) :
    readLimit = 655350 ∧
    step s (Ev.netFrame m) = some (readerError s ReadErr.readLimitExceeded) ∧
    (readerError s ReadErr.readLimitExceeded).handledMsgs = s.handledMsgs := by
  refine ⟨rfl, ?_, rfl⟩
  simp only [step, hr]
  rw [if_neg (by omega)]

theorem c10_witness :
    step initSess (Ev.netFrame (List.replicate 655351 0)) =
      some (readerError initSess ReadErr.readLimitExceeded) :=
  (c10_oversized_frame_takes_error_path initSess (List.replicate 655351 0) rfl
    (by rw [List.length_replicate]; decide)).2.1

end BinanceConnector
